import Mathlib

/-
  Verification development for the TP-7 Audio Recorder app (src/App.js,
  second and most complete variant in the file).  The mutable React state of
  the component is embedded as an explicit record `AppState`; the event
  handlers (`startRecording`, `stopRecording`, `playRecording`, the playback
  status callback) become state-transition functions that additionally emit a
  trace of audio-engine events, so that ordering properties (release before
  reacquire) can be stated about the trace.
-/

namespace TP7

/-- A saved recording entry, as constructed in `stopRecording` and in the
hard-coded sample list.  The sample entries carry no `uri` key, which is
embedded as `uri = none`. -/
structure Recording where
  id : Nat
  duration : String
  transcription : String
  time : String
  sectionLabel : String
  uri : Option String
deriving DecidableEq, Repr

/-- A loaded playback sound handle (`Audio.Sound`).  `callbackRecId` is the
`recording.id` captured by the closure passed to
`setOnPlaybackStatusUpdate`; `subscribed` records whether that status
callback is installed. -/
structure SoundHandle where
  hid : Nat
  uri : String
  callbackRecId : Nat
  subscribed : Bool
deriving DecidableEq, Repr

/-- Events issued to the audio engine / user, in order. -/
inductive EngineEvent where
  | unloadSound (hid : Nat)
  | createSound (hid : Nat) (uri : String)
  | stopUnloadCapture (hid : Nat)
  | createCapture (hid : Nat)
  | alert (title : String) (msg : String)
deriving DecidableEq, Repr

/-- The component state of `App` (the `useState` cells that the claims are
about).  `recording` is the live capture handle (`Audio.Recording`),
identified by a number; `playbackProgress` is the JS object keyed by
recording id, embedded as a partial function. -/
structure AppState where
  isRecording : Bool
  isPaused : Bool
  recordingDuration : Nat
  recordings : List Recording
  recording : Option Nat
  playingId : Option Nat
  playbackProgress : Nat → Option ℚ
  playbackPosition : Nat
  playbackDuration : Nat
  currentSound : Option SoundHandle

/-- JS `String.prototype.padStart(targetLength, padChar)`. -/
def jsPadStart (s : String) (targetLength : Nat) (padChar : Char) : String :=
  if s.length < targetLength then
    String.mk (List.replicate (targetLength - s.length) padChar) ++ s
  else s

/-- `formatDuration` from App.js: hours unpadded, minutes and seconds padded
to two digits, joined by dots. -/
def formatDuration (seconds : Nat) : String :=
  let hours := seconds / 3600
  let minutes := (seconds % 3600) / 60
  let secs := seconds % 60
  toString hours ++ "." ++ jsPadStart (toString minutes) 2 '0' ++ "." ++
    jsPadStart (toString secs) 2 '0'

/-- JS object spread `{...m, [k]: v}` on the progress map. -/
def jsSpreadSet (m : Nat → Option ℚ) (k : Nat) (v : ℚ) : Nat → Option ℚ :=
  fun q => if q = k then some v else m q

/-- `startRecording` from App.js (success path of the engine): if a capture
handle is live it is stopped and unloaded first, then a fresh handle is
created; the state keeps the new handle and sets the recording flags. -/
def startRecording (st : AppState) (freshHandle : Nat) :
    AppState × List EngineEvent :=
  let tr0 : List EngineEvent :=
    match st.recording with
    | some h => [EngineEvent.stopUnloadCapture h]
    | none => []
  ({ st with recording := some freshHandle, isRecording := true, isPaused := false },
   tr0 ++ [EngineEvent.createCapture freshHandle])

/-- Iterate `startRecording` over a list of fresh handle ids, concatenating
the emitted traces. -/
def runStarts (st : AppState) (freshes : List Nat) :
    AppState × List EngineEvent :=
  match freshes with
  | [] => (st, [])
  | f :: fs =>
    let r1 := startRecording st f
    let r2 := runStarts r1.1 fs
    (r2.1, r1.2 ++ r2.2)

/-- Result of `recording.stopAndUnloadAsync()` followed by `getURI()`:
either the awaited call throws, or it succeeds and `getURI` returns a
possibly-null uri. -/
inductive StopResult where
  | failure
  | success (uri : Option String)
deriving DecidableEq, Repr

/-- `stopRecording` from App.js.  With no live handle it is a no-op.  On a
successful finalize it prepends the new entry (id from `Date.now()`,
duration formatted from the elapsed counter, transcription sentinel
`"New recording..."`, section `"Today"`) and resets the session state.  If
`stopAndUnloadAsync` throws, the `catch` only alerts: none of the state
resets run. -/
def stopRecording (st : AppState) (res : StopResult) (nowId : Nat)
    (timeLabel : String) : AppState × List EngineEvent :=
  match st.recording with
  | none => (st, [])
  | some h =>
    match res with
    | StopResult.failure =>
      (st, [EngineEvent.alert "Recording Error" "Failed to stop recording."])
    | StopResult.success uri =>
      let newRecording : Recording :=
        { id := nowId
          duration := formatDuration st.recordingDuration
          transcription := "New recording..."
          time := timeLabel
          sectionLabel := "Today"
          uri := uri }
      ({ st with
          recordings := newRecording :: st.recordings
          recording := none
          isRecording := false
          isPaused := false
          recordingDuration := 0 },
       [EngineEvent.stopUnloadCapture h])

/-- `playRecording` from App.js (engine load succeeding).  Any currently
loaded sound is unloaded and cleared first; only then is the uri checked —
a missing uri alerts and returns without touching `playingId` or the
progress map.  Otherwise a fresh sound is created with the status callback
installed, `playingId` is set and the duration recorded. -/
def playRecording (st : AppState) (rec : Recording) (freshHandle : Nat)
    (durationMillis : Nat) : AppState × List EngineEvent :=
  let step1 : AppState × List EngineEvent :=
    match st.currentSound with
    | some s => ({ st with currentSound := none }, [EngineEvent.unloadSound s.hid])
    | none => (st, [])
  match rec.uri with
  | none =>
    (step1.1, step1.2 ++ [EngineEvent.alert "Error" "Recording file not found"])
  | some u =>
    let sound : SoundHandle :=
      { hid := freshHandle, uri := u, callbackRecId := rec.id, subscribed := true }
    ({ step1.1 with
        currentSound := some sound
        playingId := some rec.id
        playbackDuration := durationMillis },
     step1.2 ++ [EngineEvent.createSound freshHandle u])

/-- The closure passed to `setOnPlaybackStatusUpdate` in `playRecording`,
with `recId` the captured `recording.id`.  Only acts when the status is
loaded; writes position and the progress percentage, and on
`didJustFinish` clears `playingId`, zeroes the position and zeroes this
item's progress entry.  It does not touch `currentSound`: the handle and
its subscription stay installed. -/
def onPlaybackStatusUpdate (st : AppState) (recId : Nat) (isLoaded : Bool)
    (positionMillis durationMillis : Nat) (didJustFinish : Bool) : AppState :=
  if isLoaded then
    let progress : ℚ :=
      if durationMillis ≠ 0 then
        (positionMillis : ℚ) / (durationMillis : ℚ) * 100
      else 0
    let st1 := { st with
        playbackPosition := positionMillis
        playbackProgress := jsSpreadSet st.playbackProgress recId progress }
    if didJustFinish then
      { st1 with
          playingId := none
          playbackPosition := 0
          playbackProgress := jsSpreadSet st1.playbackProgress recId 0 }
    else st1
  else st

/-- First hard-coded demo entry. -/
def sample1 : Recording :=
  { id := 1, duration := "00:30",
    transcription := "Yo mama so fat she hit da quan. For real.",
    time := "11:35 AM", sectionLabel := "Today", uri := none }

/-- Second hard-coded demo entry. -/
def sample2 : Recording :=
  { id := 2, duration := "00:24",
    transcription := "Well I\x27m a peanut bar and I\x27m here to say. Your checks will arrive on another day! Another day, another dime, another rh...",
    time := "11:35 AM", sectionLabel := "Today", uri := none }

/-- Third hard-coded demo entry. -/
def sample3 : Recording :=
  { id := 3, duration := "00:30",
    transcription := "Yo mama so fat she hit da quan. For real.",
    time := "11:35 AM", sectionLabel := "Yesterday", uri := none }

/-- Fourth hard-coded demo entry. -/
def sample4 : Recording :=
  { id := 4, duration := "00:24",
    transcription := "Well I\x27m a peanut bar and I\x27m here to say. Your checks will arrive on another day! Another day, another dime, another rh...",
    time := "11:35 AM", sectionLabel := "Yesterday", uri := none }

/-- `sampleRecordings` from App.js: the demo list is substituted exactly
when the real collection is empty. -/
def sampleRecordings (recordings : List Recording) : List Recording :=
  if recordings.length = 0 then [sample1, sample2, sample3, sample4]
  else recordings

/-- Outcome of the single transcription attempt against the remote
service, as classified by the spec (§4.3): success with possibly
empty/missing text, or one of the failure classes. -/
inductive TOutcome where
  | success (text : Option String)
  | unauthorized
  | payloadTooLarge
  | rateLimited
  | badRequest
  | otherRemote (msg : String)
  | networkUnreachable
deriving DecidableEq, Repr

/-- Environment a transcription job runs against: whether the service
credential is configured, whether the underlying asset exists, and the
outcome the remote service would give. -/
structure TEnv where
  apiKeyConfigured : Bool
  assetExists : Bool
  outcome : TOutcome
deriving DecidableEq, Repr

/-- A Recording as seen by the transcription pipeline, carrying the
`isTranscribing` flag of the spec data model. -/
structure TRecording where
  id : Nat
  transcription : String
  isTranscribing : Bool
  uri : Option String
deriving DecidableEq, Repr

/-- Observable actions of a transcription job: field writes on its
Recording and the remote call. -/
inductive TAction where
  | networkCall
  | setTranscription (text : String)
  | setIsTranscribing (b : Bool)
deriving DecidableEq, Repr

/-- Is this action a write to `isTranscribing`? -/
def TAction.writesFlag : TAction → Bool
  | TAction.setIsTranscribing _ => true
  | _ => false

/-- Modelled from the spec: the TranscriptionCoordinator of §4.3 is not
among the source files under src/ — only the Expo config (`groqApiKey`)
and the README refer to the transcription service.  Faithful to the
spec's words: pre-flight checks in order (credential configured, uri
present, asset exists), each failure writing a fixed final message with
no network call; otherwise exactly one network attempt whose outcome is
classified into a final message (empty/missing success text replaced by a
placeholder); every path writes the final transcription and sets
`isTranscribing` to false. -/
def submit (env : TEnv) (r : TRecording) : TRecording × List TAction :=
  let finish (msg : String) (pre : List TAction) : TRecording × List TAction :=
    ({ r with transcription := msg, isTranscribing := false },
     pre ++ [TAction.setTranscription msg, TAction.setIsTranscribing false])
  if env.apiKeyConfigured = false then
    finish "Transcription not configured" []
  else
    match r.uri with
    | none => finish "Recording file unavailable" []
    | some _ =>
      if env.assetExists = false then
        finish "Recording file unavailable" []
      else
        match env.outcome with
        | TOutcome.success text =>
          match text with
          | none => finish "No transcription available" [TAction.networkCall]
          | some t =>
            if t = "" then finish "No transcription available" [TAction.networkCall]
            else finish t [TAction.networkCall]
        | TOutcome.unauthorized => finish "Transcription failed: unauthorized" [TAction.networkCall]
        | TOutcome.payloadTooLarge => finish "Transcription failed: recording too large" [TAction.networkCall]
        | TOutcome.rateLimited => finish "Transcription failed: rate limited" [TAction.networkCall]
        | TOutcome.badRequest => finish "Transcription failed: bad request" [TAction.networkCall]
        | TOutcome.otherRemote msg => finish ("Transcription failed: " ++ msg) [TAction.networkCall]
        | TOutcome.networkUnreachable => finish "Transcription failed: network unreachable" [TAction.networkCall]

/-- Does `hay` start with `needle`?  (Embedding of the prefix test used to
define JS `String.prototype.includes`.) -/
def listStartsWith : List Char → List Char → Bool
  | _, [] => true
  | [], _ :: _ => false
  | c :: cs, d :: ds => c == d && listStartsWith cs ds

/-- Does `needle` occur as a contiguous substring of `hay`? -/
def listIncludes : List Char → List Char → Bool
  | [], needle => needle.isEmpty
  | c :: rest, needle => listStartsWith (c :: rest) needle || listIncludes rest needle

/-- JS `s.includes(needle)`. -/
def jsIncludes (s needle : String) : Bool :=
  listIncludes s.toList needle.toList

/-- The render condition of the Show More affordance in `RecordingItem`:
`recording.transcription.includes('...')`. -/
def showMoreVisible (rec : Recording) : Bool :=
  jsIncludes rec.transcription "..."

/-- Two-digit zero padding, written from the spec sentence: MM/SS are
always 2 digits. -/
def specPad2 (n : Nat) : String :=
  if n < 10 then "0" ++ toString n else toString n

/-- The time format as the spec words it: `floor(s/3600)` with no leading
zero, a dot, `floor((s%3600)/60)` padded to 2 digits, a dot, `s%60`
padded to 2 digits. -/
def specFormatDuration (s : Nat) : String :=
  toString (s / 3600) ++ "." ++ specPad2 ((s % 3600) / 60) ++ "." ++ specPad2 (s % 60)

/-- Net effect of an engine event on the number of live capture handles. -/
def captureDelta : EngineEvent → Int
  | EngineEvent.createCapture _ => 1
  | EngineEvent.stopUnloadCapture _ => -1
  | _ => 0

/-- Live capture handles in a state: the `recording` cell holds at most
one. -/
def captureCount (st : AppState) : Int :=
  if st.recording.isSome then 1 else 0

/-- Running a trace from `n` live capture handles, the count never
reaches 2 (checked before every event and at the end). -/
def neverTwoLive : Int → List EngineEvent → Bool
  | n, [] => decide (n ≤ 1)
  | n, e :: es => decide (n ≤ 1) && neverTwoLive (n + captureDelta e) es

/-- Live capture count after running a whole trace from `n`. -/
def liveEnd (n : Int) (tr : List EngineEvent) : Int :=
  tr.foldl (fun m e => m + captureDelta e) n

/-- Is a sound handle loaded with its status callback still installed? -/
def subscriptionLive (st : AppState) : Bool :=
  match st.currentSound with
  | some s => s.subscribed
  | none => false

/-- The all-idle app state (initial `useState` values). -/
def idleState : AppState :=
  { isRecording := false
    isPaused := false
    recordingDuration := 0
    recordings := []
    recording := none
    playingId := none
    playbackProgress := fun _ => none
    playbackPosition := 0
    playbackDuration := 0
    currentSound := none }

/-- Recording A of the playback scenarios: id 1, playable. -/
def recA : Recording :=
  { id := 1, duration := "0.00.10", transcription := "first",
    time := "10:00 AM", sectionLabel := "Today", uri := some "a.m4a" }

/-- Recording B of the playback scenarios: id 2, playable. -/
def recB : Recording :=
  { id := 2, duration := "0.00.12", transcription := "second",
    time := "10:05 AM", sectionLabel := "Today", uri := some "b.m4a" }

/-- A recording without a uri (unplayable). -/
def recNoUri : Recording :=
  { id := 3, duration := "0.00.05", transcription := "third",
    time := "10:10 AM", sectionLabel := "Today", uri := none }

/-- Concrete state: A (id 1) is playing on handle 7, with leftover
progress entries 37 for A and 55 for B. -/
def stPlayingA : AppState :=
  { idleState with
      playingId := some 1
      playbackProgress := fun k => if k = 1 then some 37 else if k = 2 then some 55 else none
      currentSound := some { hid := 7, uri := "a.m4a", callbackRecId := 1, subscribed := true } }

/-- Concrete state: a live capture on handle 5 with 4 elapsed seconds. -/
def stCapturing : AppState :=
  { idleState with
      isRecording := true
      recordingDuration := 4
      recording := some 5 }

/-- A short recording whose transcription ends in an ellipsis. -/
def recDots : Recording :=
  { id := 4, duration := "0.00.02", transcription := "abc...",
    time := "10:15 AM", sectionLabel := "Today", uri := some "d.m4a" }

/- ------------------------------------------------------------------ -/
/- Helper lemmas                                                      -/
/- ------------------------------------------------------------------ -/

/-- JS `padStart(2, '0')` on the decimal string of a number below 60
agrees with the two-digit zero padding the spec describes. -/
theorem pad2_agree : ∀ m : Nat, m < 60 → jsPadStart (toString m) 2 '0' = specPad2 m := by
  decide

/-- `neverTwoLive` distributes over trace concatenation. -/
theorem neverTwoLive_append (a : List EngineEvent) (b : List EngineEvent) (n : Int) :
    neverTwoLive n (a ++ b) = (neverTwoLive n a && neverTwoLive (liveEnd n a) b) := by
  induction a generalizing n with
  | nil =>
    cases b with
    | nil => simp [neverTwoLive, liveEnd]
    | cons e es =>
      simp only [List.nil_append, neverTwoLive, liveEnd, List.foldl_nil]
      cases h : decide (n ≤ 1) <;> simp [neverTwoLive, h]
  | cons e es ih =>
    have h1 : neverTwoLive n ((e :: es) ++ b) =
        (decide (n ≤ 1) && neverTwoLive (n + captureDelta e) (es ++ b)) := rfl
    have h2 : neverTwoLive n (e :: es) =
        (decide (n ≤ 1) && neverTwoLive (n + captureDelta e) es) := rfl
    have h3 : liveEnd n (e :: es) = liveEnd (n + captureDelta e) es := rfl
    rw [h1, ih, h2, h3, Bool.and_assoc]

/-- One `startRecording` step: the trace stays below two live captures,
ends with exactly one live handle, and the resulting state records it. -/
theorem startRecording_step (st : AppState) (f : Nat) :
    neverTwoLive (captureCount st) (startRecording st f).2 = true ∧
    liveEnd (captureCount st) (startRecording st f).2 = 1 ∧
    captureCount (startRecording st f).1 = 1 := by
  cases h : st.recording <;>
    simp [startRecording, captureCount, neverTwoLive, liveEnd, captureDelta, h]

/-- `listStartsWith` decides prefix decomposition. -/
theorem listStartsWith_iff (hay needle : List Char) :
    listStartsWith hay needle = true ↔ ∃ t, hay = needle ++ t := by
  induction needle generalizing hay with
  | nil => simp [listStartsWith]
  | cons d ds ih =>
    cases hay with
    | nil => simp [listStartsWith]
    | cons c cs =>
      simp [listStartsWith, ih, List.cons_eq_cons]

/-- `listIncludes` decides contiguous-substring decomposition. -/
theorem listIncludes_iff (hay needle : List Char) :
    listIncludes hay needle = true ↔ ∃ pre post, hay = pre ++ needle ++ post := by
  induction hay with
  | nil =>
    simp only [listIncludes, List.isEmpty_iff]
    constructor
    · intro h
      exact ⟨[], [], by simp [h]⟩
    · rintro ⟨pre, post, h⟩
      rcases List.append_eq_nil.mp h.symm with ⟨h1, h2⟩
      rcases List.append_eq_nil.mp h1 with ⟨-, h3⟩
      exact h3
  | cons c cs ih =>
    simp only [listIncludes, Bool.or_eq_true, listStartsWith_iff, ih]
    constructor
    · rintro (⟨t, ht⟩ | ⟨pre, post, h⟩)
      · exact ⟨[], t, by simp [ht]⟩
      · exact ⟨c :: pre, post, by simp [h]⟩
    · rintro ⟨pre, post, h⟩
      cases pre with
      | nil =>
        exact Or.inl ⟨post, by simpa using h⟩
      | cons p ps =>
        right
        refine ⟨ps, post, ?_⟩
        have h4 := List.cons_eq_cons.mp (by simpa using h)
        exact h4.2.trans (List.append_assoc ps needle post).symm

/- ------------------------------------------------------------------ -/
/- Claim theorems                                                     -/
/- ------------------------------------------------------------------ -/

/-- C8: `formatDuration` computes exactly the spec's `H.MM.SS` shape — the
hour part unpadded, minutes and seconds two-digit zero-padded — for every
non-negative count of seconds, and in particular maps 0, 65 and 3661 to
the three listed strings. -/
theorem C8_formatDuration_spec :
    (∀ s : Nat, formatDuration s = specFormatDuration s) ∧
    formatDuration 0 = "0.00.00" ∧
    formatDuration 65 = "0.01.05" ∧
    formatDuration 3661 = "1.01.01" := by
  refine ⟨fun s => ?_, by decide, by decide, by decide⟩
  have h1 : (s % 3600) / 60 < 60 :=
    Nat.div_lt_of_lt_mul (Nat.mod_lt s (by norm_num))
  have h2 : s % 60 < 60 := Nat.mod_lt s (by norm_num)
  simp only [formatDuration, specFormatDuration, pad2_agree _ h1, pad2_agree _ h2]

/-- C10: with an empty collection the presentation substitutes the four
hard-coded samples (ids 1–4, two per section), all of which lack a uri and
are unplayable (`playRecording` never activates them and leaves no sound
loaded); as soon as one real recording exists the list is passed through
unchanged. -/
theorem C10_sampleRecordings :
    sampleRecordings [] = [sample1, sample2, sample3, sample4] ∧
    ((sampleRecordings []).map Recording.id) = [1, 2, 3, 4] ∧
    ((sampleRecordings []).filter (fun r => r.sectionLabel == "Today")).length = 2 ∧
    ((sampleRecordings []).filter (fun r => r.sectionLabel == "Yesterday")).length = 2 ∧
    (∀ r ∈ sampleRecordings [], r.uri = none) ∧
    (∀ (st : AppState) (r : Recording) (fresh dur : Nat), r ∈ sampleRecordings [] →
      (playRecording st r fresh dur).1.playingId = st.playingId ∧
      (playRecording st r fresh dur).1.currentSound = none) ∧
    (∀ (rec : Recording) (rs : List Recording), sampleRecordings (rec :: rs) = rec :: rs) := by
  refine ⟨by decide, by decide, by decide, by decide, by decide, ?_, ?_⟩
  · intro st r fresh dur hr
    have hu : r.uri = none := by
      have hmem : r = sample1 ∨ r = sample2 ∨ r = sample3 ∨ r = sample4 := by
        simpa [sampleRecordings] using hr
      rcases hmem with rfl | rfl | rfl | rfl <;> rfl
    cases hs : st.currentSound <;> simp [playRecording, hu, hs]
  · intro rec rs
    simp [sampleRecordings]

/-- C10 witness: the first sample has no uri, and playing it from the idle
state activates nothing and loads no sound. -/
theorem C10_sampleRecordings_witness :
    sample1.uri = none ∧
    (playRecording idleState sample1 3 0).1.playingId = idleState.playingId ∧
    (playRecording idleState sample1 3 0).1.currentSound = none := by
  have h := C10_sampleRecordings
  have hm : sample1 ∈ sampleRecordings [] := by decide
  exact ⟨h.2.2.2.2.1 sample1 hm, (h.2.2.2.2.2.1 idleState sample1 3 0 hm).1,
    (h.2.2.2.2.2.1 idleState sample1 3 0 hm).2⟩

/-- C2: over any sequence of start-capture requests from any state, the
live-capture count never reaches two (the prior handle's stop/unload is
always traced before the fresh handle's creation), and when a handle is
live the emitted trace is exactly stop-then-create. -/
theorem C2_no_two_captures :
    (∀ (st : AppState) (freshes : List Nat),
      neverTwoLive (captureCount st) (runStarts st freshes).2 = true) ∧
    (∀ (st : AppState) (h f : Nat), st.recording = some h →
      (startRecording st f).2 =
        [EngineEvent.stopUnloadCapture h, EngineEvent.createCapture f]) := by
  constructor
  · intro st freshes
    induction freshes generalizing st with
    | nil =>
      cases h : st.recording <;> simp [runStarts, neverTwoLive, captureCount, h]
    | cons f fs ih =>
      have hstep := startRecording_step st f
      simp only [runStarts, neverTwoLive_append, Bool.and_eq_true]
      refine ⟨hstep.1, ?_⟩
      rw [hstep.2.1, ← hstep.2.2]
      exact ih (startRecording st f).1
  · intro st h f hlive
    simp [startRecording, hlive]

/-- C2 witness: from a state with live capture handle 5, two successive
starts keep the live count below two, and a single start stops handle 5
before creating handle 6. -/
theorem C2_no_two_captures_witness :
    neverTwoLive (captureCount stCapturing) (runStarts stCapturing [6, 7]).2 = true ∧
    (startRecording stCapturing 6).2 =
      [EngineEvent.stopUnloadCapture 5, EngineEvent.createCapture 6] :=
  ⟨C2_no_two_captures.1 stCapturing [6, 7], C2_no_two_captures.2 stCapturing 5 6 rfl⟩

/-- C1 counterexample: with recording A (id 1) active and a leftover
progress value 55 for recording B (id 2), `playRecording` on B leaves
B's progress-map entry at 55 — it is not reset to 0 by `play` itself,
contrary to the claim. -/
theorem C1_progress_not_reset_cex :
    stPlayingA.playingId = some recA.id ∧
    recB.uri = some "b.m4a" ∧
    (playRecording stPlayingA recB 8 1000).1.playingId = some recB.id ∧
    (playRecording stPlayingA recB 8 1000).1.playbackProgress recB.id = some 55 ∧
    (55 : ℚ) ≠ 0 := by
  decide

/-- C1 (amended): playing B while A is active makes B the active item,
unloads A's sound handle strictly before creating B's, and leaves the
whole progress map — A's entry and B's entry alike — unchanged (B's entry
is only later overwritten by the position callback, not reset by `play`). -/
theorem C1_play_supersedes (st : AppState) (a : Nat) (s : SoundHandle)
    (rec : Recording) (u : String) (fresh dur : Nat)
    (hA : st.playingId = some a) (hS : st.currentSound = some s)
    (hNe : rec.id ≠ a) (hU : rec.uri = some u) :
    (playRecording st rec fresh dur).1.playingId = some rec.id ∧
    (playRecording st rec fresh dur).1.playbackProgress = st.playbackProgress ∧
    (playRecording st rec fresh dur).2 =
      [EngineEvent.unloadSound s.hid, EngineEvent.createSound fresh u] := by
  simp [playRecording, hS, hU]

/-- C1 witness: the amended theorem at the concrete A-playing state. -/
theorem C1_play_supersedes_witness :
    (playRecording stPlayingA recB 8 1000).1.playingId = some recB.id ∧
    (playRecording stPlayingA recB 8 1000).1.playbackProgress = stPlayingA.playbackProgress ∧
    (playRecording stPlayingA recB 8 1000).2 =
      [EngineEvent.unloadSound 7, EngineEvent.createSound 8 "b.m4a"] :=
  C1_play_supersedes stPlayingA 1
    { hid := 7, uri := "a.m4a", callbackRecId := 1, subscribed := true }
    recB "b.m4a" 8 1000 rfl rfl (by decide) rfl

/-- C3 counterexample: `playRecording` on a uri-less recording first
unloads and clears the currently loaded sound handle, so playback state is
mutated, contrary to the claim's no-state-mutation; no existence/size
probe exists in the code at all (`expo-file-system` is imported but never
called). -/
theorem C3_sound_cleared_cex :
    recNoUri.uri = none ∧
    stPlayingA.currentSound ≠ none ∧
    (playRecording stPlayingA recNoUri 9 0).1.currentSound = none := by
  decide

/-- C3 (amended): `playRecording` on a recording without a uri alerts and
creates no sound; `playingId`, the progress map and the recordings list
are unchanged, but any currently loaded sound handle has already been
unloaded and cleared before the uri check (and no asset probe is
performed). -/
theorem C3_play_no_uri (st : AppState) (rec : Recording) (fresh dur : Nat)
    (hU : rec.uri = none) :
    (playRecording st rec fresh dur).1.playingId = st.playingId ∧
    (playRecording st rec fresh dur).1.playbackProgress = st.playbackProgress ∧
    (playRecording st rec fresh dur).1.recordings = st.recordings ∧
    (playRecording st rec fresh dur).1.currentSound = none ∧
    EngineEvent.alert "Error" "Recording file not found" ∈ (playRecording st rec fresh dur).2 ∧
    (∀ e ∈ (playRecording st rec fresh dur).2, ∀ hid u, e ≠ EngineEvent.createSound hid u) := by
  cases hs : st.currentSound <;> simp [playRecording, hU, hs]

/-- C3 witness: the amended theorem at the concrete A-playing state and
the uri-less recording. -/
theorem C3_play_no_uri_witness :
    (playRecording stPlayingA recNoUri 9 0).1.playingId = stPlayingA.playingId ∧
    (playRecording stPlayingA recNoUri 9 0).1.playbackProgress = stPlayingA.playbackProgress ∧
    (playRecording stPlayingA recNoUri 9 0).1.recordings = stPlayingA.recordings ∧
    (playRecording stPlayingA recNoUri 9 0).1.currentSound = none ∧
    EngineEvent.alert "Error" "Recording file not found" ∈ (playRecording stPlayingA recNoUri 9 0).2 := by
  have h := C3_play_no_uri stPlayingA recNoUri 9 0 rfl
  exact ⟨h.1, h.2.1, h.2.2.1, h.2.2.2.1, h.2.2.2.2.1⟩

/-- C4 counterexample: after the status callback fires with
`didJustFinish`, the sound handle is still loaded with its status
subscription installed — the code neither unloads nor unsubscribes,
contrary to the claim's "position subscription unsubscribed". -/
theorem C4_subscription_not_removed_cex :
    stPlayingA.playingId = some 1 ∧
    subscriptionLive stPlayingA = true ∧
    (onPlaybackStatusUpdate stPlayingA 1 true 5000 5000 true).playingId = none ∧
    subscriptionLive (onPlaybackStatusUpdate stPlayingA 1 true 5000 5000 true) = true := by
  decide

/-- C4 (amended): when the callback fires with `didFinish` for the active
item, that item's progress entry is 0, `activeRecordingId` is cleared and
the playback position reset; but the sound handle (and with it the
status subscription) is left exactly as it was — nothing unsubscribes —
and the code stores no playback-pause flag at all. -/
theorem C4_didFinish_clears (st : AppState) (recId pos dur : Nat)
    (hA : st.playingId = some recId) :
    (onPlaybackStatusUpdate st recId true pos dur true).playbackProgress recId = some 0 ∧
    (onPlaybackStatusUpdate st recId true pos dur true).playingId = none ∧
    (onPlaybackStatusUpdate st recId true pos dur true).playbackPosition = 0 ∧
    (onPlaybackStatusUpdate st recId true pos dur true).currentSound = st.currentSound := by
  simp [onPlaybackStatusUpdate, jsSpreadSet]

/-- C4 witness: the amended theorem at the concrete A-playing state. -/
theorem C4_didFinish_clears_witness :
    (onPlaybackStatusUpdate stPlayingA 1 true 5000 3000 true).playbackProgress 1 = some 0 ∧
    (onPlaybackStatusUpdate stPlayingA 1 true 5000 3000 true).playingId = none ∧
    (onPlaybackStatusUpdate stPlayingA 1 true 5000 3000 true).playbackPosition = 0 ∧
    (onPlaybackStatusUpdate stPlayingA 1 true 5000 3000 true).currentSound = stPlayingA.currentSound :=
  C4_didFinish_clears stPlayingA 1 5000 3000 rfl

/-- C5 counterexample: the entry created by a successful `stopRecording`
carries the sentinel `"New recording..."`, not `"Transcribing…"`, and the
Recording record has no `isTranscribing` field at all. -/
theorem C5_sentinel_cex :
    stCapturing.recording = some 5 ∧
    ((stopRecording stCapturing (StopResult.success (some "u.m4a")) 100 "09:00 AM").1.recordings.map
      Recording.transcription) = ["New recording..."] ∧
    ("New recording..." : String) ≠ "Transcribing…" := by
  decide

/-- C5 (amended): a successful `stopRecording` on a live capture with
elapsed time e prepends exactly one new Recording with duration label
`formatDuration e`, transcription sentinel `"New recording..."` (there is
no `isTranscribing` field) and section `"Today"`, resets the session to
idle and releases the capture handle. -/
theorem C5_stop_appends (st : AppState) (h : Nat) (uri : Option String)
    (nowId : Nat) (timeLabel : String) (hLive : st.recording = some h) :
    (stopRecording st (StopResult.success uri) nowId timeLabel).1.recordings =
      { id := nowId, duration := formatDuration st.recordingDuration,
        transcription := "New recording...", time := timeLabel,
        sectionLabel := "Today", uri := uri } :: st.recordings ∧
    (stopRecording st (StopResult.success uri) nowId timeLabel).1.isRecording = false ∧
    (stopRecording st (StopResult.success uri) nowId timeLabel).1.isPaused = false ∧
    (stopRecording st (StopResult.success uri) nowId timeLabel).1.recordingDuration = 0 ∧
    (stopRecording st (StopResult.success uri) nowId timeLabel).1.recording = none ∧
    (stopRecording st (StopResult.success uri) nowId timeLabel).2 =
      [EngineEvent.stopUnloadCapture h] := by
  simp [stopRecording, hLive]

/-- C5 witness: the amended theorem at the concrete capturing state. -/
theorem C5_stop_appends_witness :
    (stopRecording stCapturing (StopResult.success (some "u.m4a")) 100 "09:00 AM").1.recordings =
      { id := 100, duration := formatDuration stCapturing.recordingDuration,
        transcription := "New recording...", time := "09:00 AM",
        sectionLabel := "Today", uri := some "u.m4a" } :: stCapturing.recordings ∧
    (stopRecording stCapturing (StopResult.success (some "u.m4a")) 100 "09:00 AM").1.isRecording = false ∧
    (stopRecording stCapturing (StopResult.success (some "u.m4a")) 100 "09:00 AM").1.isPaused = false ∧
    (stopRecording stCapturing (StopResult.success (some "u.m4a")) 100 "09:00 AM").1.recordingDuration = 0 ∧
    (stopRecording stCapturing (StopResult.success (some "u.m4a")) 100 "09:00 AM").1.recording = none ∧
    (stopRecording stCapturing (StopResult.success (some "u.m4a")) 100 "09:00 AM").2 =
      [EngineEvent.stopUnloadCapture 5] :=
  C5_stop_appends stCapturing 5 (some "u.m4a") 100 "09:00 AM" rfl

/-- C6: at the failing input (live capture on handle 5, finalize throws),
the code alerts and appends nothing, but performs none of the resets: the
state is returned bit-for-bit unchanged, still flagged as recording and
still holding the dead handle — the session does not return to idle as
the claim (and spec §4.1/§7) requires. -/
theorem C6_stop_failure_behavior :
    (stopRecording stCapturing StopResult.failure 100 "09:00 AM").1 = stCapturing ∧
    stCapturing.isRecording = true ∧
    (stopRecording stCapturing StopResult.failure 100 "09:00 AM").1.isRecording = true ∧
    (stopRecording stCapturing StopResult.failure 100 "09:00 AM").1.recording = some 5 ∧
    (stopRecording stCapturing StopResult.failure 100 "09:00 AM").1.recordings = [] ∧
    (stopRecording stCapturing StopResult.failure 100 "09:00 AM").2 =
      [EngineEvent.alert "Recording Error" "Failed to stop recording."] :=
  ⟨rfl, rfl, rfl, rfl, rfl, rfl⟩

/-- C7 (spec-modelled): every transcription job ends with
`isTranscribing = false`, and the job's action trace contains exactly one
write to `isTranscribing` — the single true-to-false transition — on every
path: not-configured, missing uri, missing asset, remote success (empty
or not) and every remote failure class. -/
theorem C7_submit_terminates :
    ∀ (env : TEnv) (r : TRecording),
      (submit env r).1.isTranscribing = false ∧
      ((submit env r).2.filter TAction.writesFlag) = [TAction.setIsTranscribing false] := by
  intro env r
  rcases env with ⟨key, asset, outcome⟩
  rcases r with ⟨rid, rtr, rflag, ruri⟩
  cases key <;> cases asset <;> cases ruri <;>
    rcases outcome with (_ | t) | _ | _ | _ | _ | m | _ <;>
    simp [submit, TAction.writesFlag]
  all_goals (split <;> simp [TAction.writesFlag])

set_option maxRecDepth 10000 in
/-- C9 counterexample: the Show More affordance follows the substring
`'...'`, not any length threshold — a 3-character transcription shows it
while a 300-character one without dots does not. -/
theorem C9_threshold_cex :
    showMoreVisible { recNoUri with transcription := "..." } = true ∧
    ("..." : String).length = 3 ∧
    showMoreVisible { recNoUri with transcription := String.mk (List.replicate 300 'a') } = false ∧
    (String.mk (List.replicate 300 'a')).length = 300 := by
  decide

/-- C9 (amended): the Show More affordance is offered iff the
transcription text contains the contiguous substring `"..."` — computed
from the text and not stored; its length is never consulted. -/
theorem C9_show_more_iff_ellipsis :
    ∀ rec : Recording, showMoreVisible rec = true ↔
      ∃ pre post : List Char,
        rec.transcription.toList = pre ++ ('.' :: '.' :: '.' :: []) ++ post := by
  intro rec
  exact listIncludes_iff rec.transcription.toList ('.' :: '.' :: '.' :: [])

/-- C9 witness: the amended characterization applied to a concrete
transcription ending in an ellipsis. -/
theorem C9_show_more_iff_ellipsis_witness :
    showMoreVisible recDots = true :=
  (C9_show_more_iff_ellipsis recDots).mpr
    ⟨'a' :: 'b' :: 'c' :: [], [], by decide⟩

end TP7
